import Mathlib

/-!
Shallow embedding of the restictool configuration-resolution, command-synthesis
and orchestration pipeline (`src/restictool/configuration_parser.py`,
`src/restictool/restic_tool.py`, `src/restictool/settings.py`), together with a
spec-modelled metrics generator (the `restictool.metrics` module is referenced
by the test suite but absent from the sources).

Python dictionaries are modelled as association lists with insertion-order
preserving update; Python string truthiness (`if volume:`) is modelled
explicitly; the compiled regular expression `^[0-9a-fA-f]{48,}$` is modelled
character-class-faithfully, including the `$`-before-trailing-newline
behaviour of Python's `re`.
-/

namespace Restictool

/-- Sub-command enumeration, from `settings.py` (`SubCommand`). -/
inductive SubCommand where
  | NOTSET
  | BACKUP
  | RESTORE
  | SNAPSHOTS
  | RUN
  | EXISTS
  | CHECK
deriving DecidableEq, Repr

/-- The settings fields consumed by `restic_tool.py` (`Settings` in
`settings.py`): sub-command, prune/quiet flags, restore snapshot and
directory, cache directory and pass-through restic arguments. -/
structure Settings where
  subcommand : SubCommand
  prune : Bool
  quiet : Bool
  restore_snapshot : String
  restore_directory : String
  cache_directory : String
  restic_arguments : List String
deriving DecidableEq, Repr

/-- The `repository` section of a validated configuration
(`configuration_validator.py`, `REPOSITORY_SCHEMA`).  Optional mappings keep
their optionality (`Option`) to mirror the `if key in dict` checks. -/
structure RepositorySpec where
  location : String
  password : String
  host : Option String
  authentication : Option (List (String × String))
  extra : Option (List (String × String))
deriving DecidableEq, Repr

/-- The `options` section (`OPTIONS_SCHEMA`): common/forget/volume/localdir
scopes, each optional. -/
structure OptionsSpec where
  common : Option (List String)
  forget : Option (List String)
  volume : Option (List String)
  localdir : Option (List String)
deriving DecidableEq, Repr

/-- One entry of the `volumes` list (`VOLUME_SCHEMA`). -/
structure VolumeSpec where
  name : String
  options : Option (List String)
deriving DecidableEq, Repr

/-- One entry of the `localdirs` list (`LOCALDIR_SCHEMA`). -/
structure LocalDirSpec where
  name : String
  path : String
  options : Option (List String)
deriving DecidableEq, Repr

/-- A validated configuration document (`SCHEMA`). -/
structure Config where
  repository : RepositorySpec
  options : Option OptionsSpec
  volumes : Option (List VolumeSpec)
  localdirs : Option (List LocalDirSpec)
deriving DecidableEq, Repr

/-- `if key in dict: use the list` — an absent optional list contributes
nothing. -/
def optInList : Option (List String) → List String
  | some l => l
  | none => []

/-- An absent optional mapping contributes no pairs. -/
def optPairs : Option (List (String × String)) → List (String × String)
  | some l => l
  | none => []

/-- Python truthiness of an optional string argument: `None` and `""` are
falsy, every other string is truthy. -/
def truthy : Option String → Bool
  | none => false
  | some s => decide (s ≠ "")

/-- Insertion into a Python dict modelled as an association list: an existing
key keeps its position and gets the new value, a new key is appended. -/
def dictInsert (d : List (String × String)) (k v : String) :
    List (String × String) :=
  if d.any (fun p => p.1 == k) then
    d.map (fun p => if p.1 == k then (k, v) else p)
  else
    d ++ [(k, v)]

/-- `dict.update`: fold `dictInsert` over the new pairs, later keys
overwriting earlier ones. -/
def dictUpdate (d upd : List (String × String)) : List (String × String) :=
  upd.foldl (fun acc p => dictInsert acc p.1 p.2) d

/-- `key in dict`. -/
def envHasKey (d : List (String × String)) (k : String) : Bool :=
  d.any (fun p => p.1 == k)

/-- `Configuration.FORBIDDEN_ENV_VARS` from `configuration_parser.py`:
six `RESTIC_`-prefixed names plus the unprefixed `TMPDIR`. -/
def FORBIDDEN_ENV_VARS : List String :=
  ["RESTIC_REPOSITORY",
   "RESTIC_REPOSITORY_FILE",
   "RESTIC_PASSWORD",
   "RESTIC_PASSWORD_FILE",
   "RESTIC_PASSWORD_COMMAND",
   "RESTIC_CACHE_DIR",
   "TMPDIR"]

/-- The forbidden set as the spec's sentence words it ("the names REPOSITORY,
REPOSITORY_FILE, PASSWORD, PASSWORD_FILE, PASSWORD_COMMAND, CACHE_DIR, TMPDIR,
each prefixed with the backup engine's RESTIC_ environment namespace"), kept
for comparison with `FORBIDDEN_ENV_VARS`. -/
def claimedForbiddenEnvVars : List String :=
  ["RESTIC_REPOSITORY",
   "RESTIC_REPOSITORY_FILE",
   "RESTIC_PASSWORD",
   "RESTIC_PASSWORD_FILE",
   "RESTIC_PASSWORD_COMMAND",
   "RESTIC_CACHE_DIR",
   "RESTIC_TMPDIR"]

/-- The user-supplied environment before injection: `{}` then
`update(authentication)` then `update(extra)`
(`Configuration.create_env_vars`, first half). -/
def mergedUserEnv (cfg : Config) : List (String × String) :=
  dictUpdate (dictUpdate [] (optPairs cfg.repository.authentication))
    (optPairs cfg.repository.extra)

/-- `Configuration.create_env_vars`: merge `authentication` then `extra`,
raise on the first forbidden key found (scanning `FORBIDDEN_ENV_VARS` in
order), and only then inject `RESTIC_REPOSITORY` and `RESTIC_PASSWORD`. -/
def create_env_vars (cfg : Config) : Except String (List (String × String)) :=
  match FORBIDDEN_ENV_VARS.find? (fun k => envHasKey (mergedUserEnv cfg) k) with
  | some k => .error ("configuration invalid: variable " ++ k ++ " is forbidden")
  | none =>
      .ok (dictInsert
        (dictInsert (mergedUserEnv cfg) "RESTIC_REPOSITORY" cfg.repository.location)
        "RESTIC_PASSWORD" cfg.repository.password)

/-- `Configuration.load` hostname derivation: `repository.host` when present,
else the lower-cased system hostname (`platform.node().lower()`, supplied
here as the external `node`). -/
def resolveHostname (cfg : Config) (node : String) : String :=
  match cfg.repository.host with
  | some h => h
  | none => node.toLower

/-- The `volumes` scan of `Configuration.load`: append names in order; the
first entry named `*` clears the accumulator, sets the flag and breaks. -/
def scanVolumes (acc : List String) : List VolumeSpec → List String × Bool
  | [] => (acc, false)
  | vol :: rest =>
      if vol.name == "*" then ([], true) else scanVolumes (acc ++ [vol.name]) rest

/-- `(volumes_to_backup, backup_all_volumes)` as resolved by
`Configuration.load`. -/
def volumes_to_backup (cfg : Config) : List String × Bool :=
  match cfg.volumes with
  | some vols => scanVolumes [] vols
  | none => ([], false)

/-- `localdirs_to_backup` as resolved by `Configuration.load`: `(name, path)`
pairs in declaration order. -/
def localdirs_to_backup (cfg : Config) : List (String × String) :=
  match cfg.localdirs with
  | some ls => ls.map (fun l => (l.name, l.path))
  | none => []

/-- The character class `[0-9a-fA-f]` of `ANONYMOUS_VOLUME_REGEX` exactly as
the source spells it: ranges `0`-`9`, `a`-`f` and `A`-`f` (the last range, as
written, spans the code points from `A` to `f`, so it also covers `G`-`Z` and
the punctuation between `Z` and `a`). -/
def isAnonChar (c : Char) : Bool :=
  ('0' ≤ c && c ≤ '9') || ('a' ≤ c && c ≤ 'f') || ('A' ≤ c && c ≤ 'f')

/-- Python `re.match` of `^[0-9a-fA-f]{48,}$`: the whole string is 48+ class
characters, or the string is 48+ class characters followed by one trailing
newline (`$` matches before a final newline in Python `re`). -/
def anonVolumeMatch (s : String) : Bool :=
  let cs := s.data
  (decide (48 ≤ cs.length) && cs.all isAnonChar) ||
    (match cs.getLast? with
     | some c =>
         c == '\n' && decide (48 ≤ cs.dropLast.length) && cs.dropLast.all isAnonChar
     | none => false)

/-- The claim's own predicate, written from the spec for comparison: a
whole-string match of `^[0-9a-fA-F]{48,}$`, i.e. 48 or more genuine
hexadecimal characters. -/
def specHexDigit (c : Char) : Bool :=
  ('0' ≤ c && c ≤ '9') || ('a' ≤ c && c ≤ 'f') || ('A' ≤ c && c ≤ 'F')

/-- Whole-string 48+-hex-character match, as the spec words it. -/
def specAnonymousMatch (s : String) : Bool :=
  decide (48 ≤ s.data.length) && s.data.all specHexDigit

/-- `Configuration.is_volume_backed_up`, over the resolved
`backup_all_volumes` flag and `volumes_to_backup` list. -/
def is_volume_backed_up (backupAll : Bool) (volsToBackup : List String)
    (v : String) : Bool :=
  if backupAll then !(anonVolumeMatch v) else volsToBackup.contains v

/-- The per-volume lookup of `Configuration.get_options`: the `for`/`break`
loop stops at the first exact name match; only when no exact match exists does
the `else` clause consult the first entry named `*`. -/
def volumeMatchOpts (vols : List VolumeSpec) (v : String) : List String :=
  match vols.find? (fun vol => vol.name == v) with
  | some vol => optInList vol.options
  | none =>
      match vols.find? (fun vol => vol.name == "*") with
      | some vol => optInList vol.options
      | none => []

/-- The per-localdir lookup of `Configuration.get_options`: first exact name
match only, no wildcard fallback. -/
def localdirMatchOpts (ldirs : List LocalDirSpec) (d : String) : List String :=
  match ldirs.find? (fun l => l.name == d) with
  | some l => optInList l.options
  | none => []

/-- `Configuration.get_options` (the two-argument form present in
`configuration_parser.py`): common scope, then volume scope if a volume is
given, then localdir scope if a localdir is given, then the per-volume and
per-localdir lookups. -/
def get_options (cfg : Config) (volume localdir : Option String) : List String :=
  let options : List String := []
  let options := options ++
    (match cfg.options with
     | some o =>
         optInList o.common ++
           (if truthy volume then optInList o.volume else []) ++
           (if truthy localdir then optInList o.localdir else [])
     | none => [])
  let options := options ++
    (if truthy volume then
       match cfg.volumes with
       | some vols => volumeMatchOpts vols (volume.getD "")
       | none => []
     else [])
  let options := options ++
    (if truthy localdir then
       match cfg.localdirs with
       | some ls => localdirMatchOpts ls (localdir.getD "")
       | none => []
     else [])
  options

/-- Modelled from the spec: the `forget`-aware form of `get_options`.  The
callers in `restic_tool.py` pass a third `forget` argument
(`get_options(volume, localdir_name, forget)`), but the method in
`configuration_parser.py` under `src/` has no such parameter; the spec says
"For the `forget` scope, `options.forget` replaces the
`common`/`volume`/`localdir` lookups entirely (a disjoint mode)". -/
def get_options_forget (cfg : Config) (volume localdir : Option String)
    (forget : Bool) : List String :=
  if forget then
    match cfg.options with
    | some o => optInList o.forget
    | none => []
  else
    get_options cfg volume localdir

/-- The `options.common` contribution of a configuration. -/
def commonOpts (cfg : Config) : List String :=
  match cfg.options with
  | some o => optInList o.common
  | none => []

/-- The `options.forget` contribution of a configuration. -/
def forgetOpts (cfg : Config) : List String :=
  match cfg.options with
  | some o => optInList o.forget
  | none => []

/-- The `options.volume` (volume-scope) contribution. -/
def volumeScopeOpts (cfg : Config) : List String :=
  match cfg.options with
  | some o => optInList o.volume
  | none => []

/-- The `options.localdir` (localdir-scope) contribution. -/
def localdirScopeOpts (cfg : Config) : List String :=
  match cfg.options with
  | some o => optInList o.localdir
  | none => []

/-- The per-volume contribution: the exact/wildcard lookup over the
`volumes` list. -/
def perVolumeOpts (cfg : Config) (v : String) : List String :=
  match cfg.volumes with
  | some vols => volumeMatchOpts vols v
  | none => []

/-- The per-localdir contribution: the exact lookup over the `localdirs`
list. -/
def perLocaldirOpts (cfg : Config) (d : String) : List String :=
  match cfg.localdirs with
  | some ls => localdirMatchOpts ls d
  | none => []

/-- One container mount entry: host key, container bind path, mode. -/
abbrev Mount := String × String × String

/-- Insertion into the Python `mounts` dict keyed by host path: an existing
key keeps its position and gets the new value, a new key is appended. -/
def mountInsert (m : List Mount) (k : String) (v : String × String) :
    List Mount :=
  if m.any (fun p => p.1 == k) then
    m.map (fun p => if p.1 == k then (k, v) else p)
  else
    m ++ [(k, v)]

/-- `ResticTool._get_docker_mounts` from `restic_tool.py`: the cache directory
is always bound to `/cache`; BACKUP adds the volume (when truthy) and the
localdir `(name, path)` pair (when given); RESTORE adds the restore
directory bound to `/target`.  Every mode is `"rw"`. -/
def get_docker_mounts (s : Settings) (volume : Option String)
    (localdir : Option (String × String)) : List Mount :=
  let mounts : List Mount := []
  let mounts := mountInsert mounts s.cache_directory ("/cache", "rw")
  let mounts :=
    if s.subcommand == SubCommand.BACKUP then
      let mounts :=
        match volume with
        | some v =>
            if v == "" then mounts
            else mountInsert mounts v ("/volume/" ++ v, "rw")
        | none => mounts
      match localdir with
      | some ld => mountInsert mounts ld.2 ("/localdir/" ++ ld.1, "rw")
      | none => mounts
    else mounts
  if s.subcommand == SubCommand.RESTORE then
    mountInsert mounts s.restore_directory ("/target", "rw")
  else mounts

/-- `ResticTool._get_restic_arguments` from `restic_tool.py`: always starts
with `["--cache-dir", "/cache"]`; for BACKUP the phase word (`backup` with its
path, `forget` or `prune`) comes first, then the merged options, then
`["--host", hostname]` unless pruning; then pass-through arguments and the
quiet flag.  `hostname` is the resolved `Configuration.hostname`.  The source
asserts `volume or localdir_name` on the plain backup path; the model is only
used where that assertion holds. -/
def get_restic_arguments (s : Settings) (cfg : Config) (hostname : String)
    (volume localdir_name : Option String) (forget prune : Bool) :
    List String :=
  let options := ["--cache-dir", "/cache"]
  let options :=
    match s.subcommand with
    | SubCommand.RUN => options ++ get_options_forget cfg none none false
    | SubCommand.EXISTS =>
        options ++ ["cat", "config"] ++ get_options_forget cfg none none false
    | SubCommand.SNAPSHOTS =>
        options ++ ["snapshots"] ++ get_options_forget cfg none none false
    | SubCommand.BACKUP =>
        let options :=
          if forget then options ++ ["forget"]
          else if prune then options ++ ["prune"]
          else
            options ++ ["backup"] ++
              (if truthy volume then ["/volume/" ++ volume.getD ""]
               else ["/localdir/" ++ localdir_name.getD ""])
        let options := options ++ get_options_forget cfg volume localdir_name forget
        if prune then options else options ++ ["--host", hostname]
    | SubCommand.RESTORE =>
        options ++ ["restore", s.restore_snapshot] ++ ["--target", "/target"] ++
          get_options_forget cfg none none false
    | _ => options
  let options := options ++ s.restic_arguments
  if s.quiet then options ++ ["-q"] else options

/-- Exit codes of the container runs a BACKUP invocation performs, one per
eligible volume and per configured local directory, plus the forget/prune
runs and whether forget parameters are configured
(`Configuration.is_forget_specified`, absent from `src/`, is abstracted as
the `forgetSpecified` flag). -/
structure BackupInputs where
  volCodes : List Nat
  ldirCodes : List Nat
  forgetSpecified : Bool
  forgetCode : Nat
  pruneCode : Nat
deriving DecidableEq, Repr

/-- The incremental `if code > exit_code: exit_code = code` fold of
`_run_backup`. -/
def foldMax (codes : List Nat) (init : Nat) : Nat :=
  codes.foldl (fun e c => if c > e then c else e) init

/-- `ResticTool._run_backup`: runs every eligible volume then every localdir,
tracking the maximum exit code; when anything was backed up and forget
parameters are configured, runs forget (and prune, whose code then replaces
the forget code in the local `code` variable) and folds that into the
maximum; finally `return 0`.  The result is `(internal maximum, returned
code)`. -/
def run_backup_result (b : BackupInputs) (prune : Bool) : Nat × Nat :=
  let backedUp := !b.volCodes.isEmpty || !b.ldirCodes.isEmpty
  let exitCode := foldMax (b.volCodes ++ b.ldirCodes) 0
  let exitCode :=
    if backedUp && b.forgetSpecified then
      let code := if prune then b.pruneCode else b.forgetCode
      if code > exitCode then code else exitCode
    else exitCode
  (exitCode, 0)

/-- Outcome of `ResticTool.run`: normal return, or a raised
`ResticToolException` carrying the exit code. -/
inductive RunOutcome where
  | ok
  | raised (code : Nat)
deriving DecidableEq, Repr

/-- The exit code `ResticTool.run` receives from the per-subcommand runner:
CHECK runs nothing, BACKUP goes through `_run_backup`, and
RUN/SNAPSHOTS/RESTORE/EXISTS return their single container's exit code
(`containerCode`). -/
def subcommandExitCode (s : Settings) (b : BackupInputs)
    (containerCode : Nat) : Nat :=
  match s.subcommand with
  | SubCommand.CHECK => 0
  | SubCommand.BACKUP => (run_backup_result b s.prune).2
  | _ => containerCode

/-- `ResticTool.run`: raises `ResticToolException(exit_code)` when the runner
returned non-zero and the subcommand is not EXISTS. -/
def run_tool (s : Settings) (b : BackupInputs) (containerCode : Nat) :
    RunOutcome :=
  let ec := subcommandExitCode s b containerCode
  if ec ≠ 0 ∧ s.subcommand ≠ SubCommand.EXISTS then RunOutcome.raised ec
  else RunOutcome.ok

/-- The process exit code as `entry_point.run` produces it: 0 on normal
return, the exception's code when a `ResticToolException` escapes. -/
def process_exit_code : RunOutcome → Nat
  | RunOutcome.ok => 0
  | RunOutcome.raised c => c

/-- `_run_exists` logging decision: `exit_code > 0` logs "does not exist or
is not reachable", otherwise "exists". -/
def exists_reports_reachable (containerCode : Nat) : Bool :=
  if containerCode > 0 then false else true

/-- Modelled from the spec: the `summary` block of a backup-engine snapshot
record as the metrics generator consumes it (module `restictool.metrics` is
referenced by `tests/test_metrics.py` but absent from `src/`). -/
structure SnapshotSummary where
  backup_start : String
  backup_end : String
  total_files_processed : Nat
  total_bytes_processed : Nat
deriving DecidableEq, Repr

/-- Modelled from the spec: the snapshot-record fields consumed — `time`,
`hostname`, `paths` (first element used) and the optional `summary`. -/
structure SnapshotRecord where
  time : String
  hostname : String
  paths : List String
  summary : Option SnapshotSummary
deriving DecidableEq, Repr

/-- Modelled from the spec: a metric sample — three label values, the
mandatory timestamp and the optional duration/files/size. -/
structure MetricSample where
  repository : String
  hostname : String
  path : String
  timestampSeconds : Int
  durationSeconds : Option Int
  files : Option Nat
  sizeBytes : Option Nat
deriving DecidableEq, Repr

/-- Modelled from the spec: `Metrics.set` — parses `time` into seconds since
epoch (the RFC3339 parse is the injected `parseTime`), takes the duration as
`backup_end - backup_start` when a summary is present, and the files/size
counters from the summary; labels come from the repository location and the
record. -/
def metricsSet (parseTime : String → Int) (repository : String)
    (r : SnapshotRecord) : MetricSample :=
  { repository := repository
    hostname := r.hostname
    path := r.paths.headD ""
    timestampSeconds := parseTime r.time
    durationSeconds :=
      r.summary.map (fun s => parseTime s.backup_end - parseTime s.backup_start)
    files := r.summary.map (fun s => s.total_files_processed)
    sizeBytes := r.summary.map (fun s => s.total_bytes_processed) }

/-- Modelled from the spec: `Metrics.escape_label_value` — backslash to
`\\`, double quote to `\"`, newline to `\n`, applied once. -/
def escape_label_value (s : String) : String :=
  String.mk (s.data.foldr
    (fun c acc =>
      if c == '\\' then '\\' :: '\\' :: acc
      else if c == '"' then '\\' :: '"' :: acc
      else if c == '\n' then '\\' :: 'n' :: acc
      else c :: acc)
    [])

/-- Modelled from the spec: the shared label block of every metric line. -/
def labelPart (m : MetricSample) : String :=
  "\x7bhostname=\"" ++ escape_label_value m.hostname ++
    "\",repository=\"" ++ escape_label_value m.repository ++
    "\",path=\"" ++ escape_label_value m.path ++ "\"\x7d"

/-- Modelled from the spec: `Metrics.metric_lines` — always the timestamp
line; the duration, files and size lines only when the corresponding
optional field is present. -/
def metric_lines (m : MetricSample) : List String :=
  ["restictool_backup_timestamp_seconds" ++ labelPart m ++ " " ++
      toString m.timestampSeconds] ++
    (match m.durationSeconds with
     | some d =>
         ["restictool_backup_duration_seconds" ++ labelPart m ++ " " ++ toString d]
     | none => []) ++
    (match m.files with
     | some f => ["restictool_backup_files" ++ labelPart m ++ " " ++ toString f]
     | none => []) ++
    (match m.sizeBytes with
     | some z =>
         ["restictool_backup_size_bytes" ++ labelPart m ++ " " ++ toString z]
     | none => [])

/-! ## Fixtures used by the theorems below -/

/-- Plain BACKUP settings: no pass-through arguments, not quiet, prune
requested (read only by the forget phase). -/
def backupSettings : Settings :=
  { subcommand := SubCommand.BACKUP, prune := true, quiet := false,
    restore_snapshot := "", restore_directory := "",
    cache_directory := "/cachedir", restic_arguments := [] }

/-- EXISTS settings. -/
def existsSettings : Settings :=
  { subcommand := SubCommand.EXISTS, prune := false, quiet := true,
    restore_snapshot := "", restore_directory := "",
    cache_directory := "/cachedir", restic_arguments := [] }

/-- A configuration of the shape the end-to-end backup-synthesis claim
quantifies over: hostname `myhost`, common option `--insecure-tls`, one
volume-scope option, one volume `my_volume` with one volume-specific
option. -/
def mkC1Config (loc pwd vOpt vsOpt : String) : Config :=
  { repository := { location := loc, password := pwd, host := some "myhost",
                    authentication := none, extra := none }
    options := some { common := some ["--insecure-tls"], forget := none,
                      volume := some [vOpt], localdir := none }
    volumes := some [{ name := "my_volume", options := some [vsOpt] }]
    localdirs := none }

/-- The concrete instance of `mkC1Config` used for the counterexample. -/
def cfgC1 : Config := mkC1Config "loc" "pwd" "--volume-opt" "--exclude-caches"

/-- A configuration whose only options are forget-scope options. -/
def mkForgetConfig (fopts : List String) : Config :=
  { repository := { location := "loc", password := "pwd", host := some "myhost",
                    authentication := none, extra := none }
    options := some { common := none, forget := some fopts,
                      volume := none, localdir := none }
    volumes := none
    localdirs := none }

/-- The concrete forget configuration used for the counterexample. -/
def cfgC4 : Config := mkForgetConfig ["--keep-daily", "7"]

/-- A configuration whose `extra` mapping carries `RESTIC_TMPDIR`, a key the
spec's forbidden set contains but the code's does not. -/
def cfgC5 : Config :=
  { repository := { location := "loc", password := "pwd", host := none,
                    authentication := none, extra := some [("RESTIC_TMPDIR", "x")] }
    options := none, volumes := none, localdirs := none }

/-- A configuration whose `authentication` mapping carries the forbidden
`RESTIC_PASSWORD` key. -/
def cfgC5W : Config :=
  { repository := { location := "loc", password := "pwd", host := none,
                    authentication := some [("AWS_KEY", "1"), ("RESTIC_PASSWORD", "boo")],
                    extra := none }
    options := none, volumes := none, localdirs := none }

/-- A volume name of 48 `G` characters: not hexadecimal, yet inside the
`A`-`f` range the source regex spells. -/
def gName48 : String := String.mk (List.replicate 48 'G')

/-- Configuration exercising all option scopes, a wildcard volume entry plus
an exact one, and one localdir. -/
def cfgC6W : Config :=
  { repository := { location := "loc", password := "pwd", host := none,
                    authentication := none, extra := none }
    options := some { common := some ["--c"], forget := none,
                      volume := some ["--v"], localdir := some ["--l"] }
    volumes := some [{ name := "*", options := some ["--w"] },
                     { name := "my_volume", options := some ["--s"] }]
    localdirs := some [{ name := "my_tag", path := "/p", options := some ["--t"] }] }

/-- Configuration with a wildcard volume entry between two explicit ones. -/
def cfgC7W : Config :=
  { repository := { location := "loc", password := "pwd", host := none,
                    authentication := none, extra := none }
    options := none
    volumes := some [{ name := "a", options := none },
                     { name := "*", options := none },
                     { name := "b", options := none }]
    localdirs := none }

/-- Backup-loop exit codes used by witnesses. -/
def backupInputsW : BackupInputs :=
  { volCodes := [5], ldirCodes := [3], forgetSpecified := true,
    forgetCode := 7, pruneCode := 9 }

/-- A snapshot record without a `summary` block. -/
def recordNoSummary : SnapshotRecord :=
  { time := "2024-12-10T12:11:40Z", hostname := "mbair",
    paths := ["/volume/vscode"], summary := none }

/-! ## Helper lemmas -/

/-- If the `volumes` list has an entry named `*`, the scan ends with an empty
accumulator and the flag set, whatever was collected before. -/
theorem scanVolumes_of_any (vols : List VolumeSpec) (acc : List String)
    (h : vols.any (fun x => x.name == "*") = true) :
    scanVolumes acc vols = ([], true) := by
  induction vols generalizing acc with
  | nil => simp at h
  | cons v rest ih =>
      rw [List.any_cons] at h
      cases hb : (v.name == "*") with
      | true => unfold scanVolumes; rw [hb]; rfl
      | false =>
          rw [hb] at h
          simp only [Bool.false_or] at h
          unfold scanVolumes
          rw [hb]
          exact ih _ h

/-- Without a `*` entry, the scan collects every name in order after the
accumulator. -/
theorem scanVolumes_of_not_any (vols : List VolumeSpec) (acc : List String)
    (h : vols.any (fun x => x.name == "*") = false) :
    scanVolumes acc vols = (acc ++ vols.map (fun x => x.name), false) := by
  induction vols generalizing acc with
  | nil => simp [scanVolumes]
  | cons v rest ih =>
      rw [List.any_cons] at h
      cases hb : (v.name == "*") with
      | true => rw [hb] at h; simp at h
      | false =>
          rw [hb] at h
          simp only [Bool.false_or] at h
          unfold scanVolumes
          rw [hb]
          simp only [Bool.false_eq_true, if_false]
          rw [ih _ h]
          simp

/-- Inserting a mount with mode `"rw"` preserves the all-modes-`"rw"`
invariant. -/
theorem mountInsert_rw (m : List Mount) (k bind : String)
    (h : m.all (fun e => e.2.2 == "rw") = true) :
    (mountInsert m k (bind, "rw")).all (fun e => e.2.2 == "rw") = true := by
  unfold mountInsert
  split
  · rw [List.all_eq_true] at h ⊢
    intro e he
    rcases List.mem_map.mp he with ⟨a, ha, rfl⟩
    by_cases hpk : a.1 == k
    · simp [hpk]
    · simp only [hpk, if_false]
      exact h a ha
  · rw [List.all_eq_true] at h ⊢
    intro e he
    rcases List.mem_append.mp he with h1 | h1
    · exact h e h1
    · rw [List.mem_singleton] at h1
      subst h1
      rfl

/-! ## Claims -/

/-- C1 counterexample: for the configuration the claim describes, the
synthesized BACKUP argument vector is not the claimed
`[cache-dir, options, --host, hostname, backup, path]` ordering — the code
emits `backup` and the path before the options and `--host` last. -/
theorem c1_backup_vector_counterexample :
    get_restic_arguments backupSettings cfgC1 (resolveHostname cfgC1 "node")
      (some "my_volume") none false false
    ≠ ["--cache-dir", "/cache", "--insecure-tls", "--volume-opt",
       "--exclude-caches", "--host", "myhost", "backup", "/volume/my_volume"] := by
  decide

/-- C1 (amended): for every configuration declaring hostname `myhost`,
common option `--insecure-tls`, one volume-scope option and one volume
`my_volume` with one volume-specific option, synthesizing the BACKUP
arguments for that volume yields the cache-dir prefix, then `backup`, then
the path `/volume/my_volume`, then the merged options
(common, volume-scope, volume-specific), then `--host myhost`, in that
order. -/
theorem c1_backup_vector (loc pwd vOpt vsOpt node : String) :
    get_restic_arguments backupSettings (mkC1Config loc pwd vOpt vsOpt)
      (resolveHostname (mkC1Config loc pwd vOpt vsOpt) node)
      (some "my_volume") none false false
    = ["--cache-dir", "/cache", "backup", "/volume/my_volume",
       "--insecure-tls", vOpt, vsOpt, "--host", "myhost"] := by
  rfl

/-- C2: whatever exit codes the per-resource container runs return, the
backup runner reports 0 to the orchestrator (the aggregated maximum is only
the internal first component), so the orchestrator never raises for the
BACKUP subcommand. -/
theorem c2_backup_reports_success (s : Settings) (b : BackupInputs)
    (code : Nat) (hs : s.subcommand = SubCommand.BACKUP) :
    (run_backup_result b s.prune).2 = 0 ∧ run_tool s b code = RunOutcome.ok := by
  refine ⟨rfl, ?_⟩
  unfold run_tool subcommandExitCode
  rw [hs]
  simp [run_backup_result]

/-- C2 witness: concrete non-zero per-resource codes still yield a reported
0 and a non-raising orchestrator. -/
theorem c2_backup_reports_success_witness :
    (run_backup_result backupInputsW true).2 = 0
    ∧ run_tool backupSettings backupInputsW 0 = RunOutcome.ok :=
  c2_backup_reports_success backupSettings backupInputsW 0 rfl

/-- C3: the code bug made concrete.  The name of 48 `G` characters is not a
whole-string hexadecimal match (`specAnonymousMatch`, the claim's own
predicate, rejects it), so the claim — and the method's docstring — say it
is backed up in wildcard mode; the compiled class `[0-9a-fA-f]` nonetheless
matches it, and `is_volume_backed_up` returns `false`. -/
theorem c3_anonymous_regex_mismatch :
    specAnonymousMatch gName48 = false
    ∧ is_volume_backed_up true [] gName48 = false := by
  decide

/-- C4 counterexample: the forget-phase vector is not
`[cache-dir, options.forget, "forget"]` — the code emits `forget` before the
options and appends `--host myhost` (the host flag is only omitted for
prune). -/
theorem c4_forget_vector_counterexample :
    get_restic_arguments backupSettings cfgC4 "myhost" none none true false
    ≠ ["--cache-dir", "/cache", "--keep-daily", "7", "forget"] := by
  decide

/-- C4 (amended): for every configuration — whatever its common, volume and
localdir scopes hold — the forget phase synthesizes
`["--cache-dir","/cache","forget"]`, then the `options.forget` list alone
(spec-modelled disjoint forget scope; the common/volume/localdir scopes
contribute nothing), then `["--host", hostname]`; the prune phase alone
omits `--host` and synthesizes `["--cache-dir","/cache","prune"]` followed
by the non-forget options, which at the prune call's empty resource context
are exactly the common options. -/
theorem c4_forget_phase_vector (cfg : Config) (host : String) :
    get_restic_arguments backupSettings cfg host none none true false
      = ["--cache-dir", "/cache", "forget"] ++ forgetOpts cfg ++ ["--host", host]
    ∧ get_restic_arguments backupSettings cfg host none none false true
      = ["--cache-dir", "/cache", "prune"] ++ commonOpts cfg := by
  constructor
  · cases ho : cfg.options <;>
      simp [get_restic_arguments, get_options_forget, backupSettings,
        forgetOpts, optInList, ho]
  · cases ho : cfg.options <;>
      simp [get_restic_arguments, get_options_forget, get_options,
        backupSettings, commonOpts, truthy, optInList, ho]

/-- C5 counterexample: `RESTIC_TMPDIR` belongs to the claim's forbidden set
(every name `RESTIC_`-prefixed), a configuration carrying it in `extra`
resolves successfully — the code's list contains the unprefixed `TMPDIR`
instead. -/
theorem c5_forbidden_set_counterexample :
    claimedForbiddenEnvVars.contains "RESTIC_TMPDIR" = true
    ∧ envHasKey (mergedUserEnv cfgC5) "RESTIC_TMPDIR" = true
    ∧ (create_env_vars cfgC5).toOption
      = some [("RESTIC_TMPDIR", "x"), ("RESTIC_REPOSITORY", "loc"),
              ("RESTIC_PASSWORD", "pwd")] := by
  decide

/-- C5 (amended): for every configuration whose merged
`authentication`/`extra` mapping contains a key of the code's forbidden set
(the six `RESTIC_`-prefixed names plus the unprefixed `TMPDIR`), resolution
fails with a configuration error naming a forbidden variable, and no
environment — in particular none holding the injected `RESTIC_REPOSITORY`
and `RESTIC_PASSWORD` entries — is ever produced on that path. -/
theorem c5_forbidden_env_rejected (cfg : Config) (k : String)
    (hk : k ∈ FORBIDDEN_ENV_VARS)
    (hmem : envHasKey (mergedUserEnv cfg) k = true) :
    (∀ env, create_env_vars cfg ≠ Except.ok env)
    ∧ ∃ k', k' ∈ FORBIDDEN_ENV_VARS ∧
        create_env_vars cfg
          = Except.error ("configuration invalid: variable " ++ k' ++ " is forbidden") := by
  have hfind : ∃ k', FORBIDDEN_ENV_VARS.find?
      (fun f => envHasKey (mergedUserEnv cfg) f) = some k' := by
    have hs : (FORBIDDEN_ENV_VARS.find?
        (fun f => envHasKey (mergedUserEnv cfg) f)).isSome := by
      rw [List.find?_isSome]
      exact ⟨k, hk, hmem⟩
    exact Option.isSome_iff_exists.mp hs
  obtain ⟨k', hfind⟩ := hfind
  have hk' : k' ∈ FORBIDDEN_ENV_VARS := List.mem_of_find?_eq_some hfind
  have hval : create_env_vars cfg
      = Except.error ("configuration invalid: variable " ++ k' ++ " is forbidden") := by
    unfold create_env_vars
    rw [hfind]
  exact ⟨fun env h => by rw [hval] at h; exact Except.noConfusion h,
    ⟨k', hk', hval⟩⟩

/-- C5 witness: a configuration whose `authentication` carries
`RESTIC_PASSWORD` is rejected. -/
theorem c5_forbidden_env_rejected_witness :
    (∀ env, create_env_vars cfgC5W ≠ Except.ok env)
    ∧ ∃ k', k' ∈ FORBIDDEN_ENV_VARS ∧
        create_env_vars cfgC5W
          = Except.error ("configuration invalid: variable " ++ k' ++ " is forbidden") :=
  c5_forbidden_env_rejected cfgC5W "RESTIC_PASSWORD" (by decide) (by decide)

/-- C6: for every configuration and every non-empty volume (resp. localdir)
name, `get_options` returns the common options first, then the scope
options, then the per-resource options; an exact volume-name match always
wins over the `*` entry (never both contributing), the wildcard is consulted
only when no exact match exists, and the localdir lookup is exact-match only
with no wildcard fallback. -/
theorem c6_get_options_structure (cfg : Config) (v d : String)
    (hv : v ≠ "") (hd : d ≠ "") :
    get_options cfg (some v) none
      = commonOpts cfg ++ volumeScopeOpts cfg ++ perVolumeOpts cfg v
    ∧ get_options cfg none (some d)
      = commonOpts cfg ++ localdirScopeOpts cfg ++ perLocaldirOpts cfg d
    ∧ (∀ vols vol, cfg.volumes = some vols →
        vols.find? (fun x => x.name == v) = some vol →
        perVolumeOpts cfg v = optInList vol.options)
    ∧ (∀ vols, cfg.volumes = some vols →
        vols.find? (fun x => x.name == v) = none →
        perVolumeOpts cfg v
          = (match vols.find? (fun x => x.name == "*") with
             | some w => optInList w.options
             | none => []))
    ∧ (∀ ls, cfg.localdirs = some ls →
        ls.find? (fun x => x.name == d) = none →
        perLocaldirOpts cfg d = []) := by
  refine ⟨?_, ?_, ?_, ?_, ?_⟩
  · cases ho : cfg.options <;> cases hvs : cfg.volumes <;>
      simp [get_options, commonOpts, volumeScopeOpts, perVolumeOpts,
        truthy, hv, ho, hvs, optInList]
  · cases ho : cfg.options <;> cases hls : cfg.localdirs <;>
      simp [get_options, commonOpts, localdirScopeOpts, perLocaldirOpts,
        truthy, hd, ho, hls, optInList]
  · intro vols vol hcv hfind
    simp only [perVolumeOpts, volumeMatchOpts, hcv]
    rw [hfind]
  · intro vols hcv hfind
    simp only [perVolumeOpts, volumeMatchOpts, hcv]
    rw [hfind]
  · intro ls hld hfind
    simp only [perLocaldirOpts, localdirMatchOpts, hld]
    rw [hfind]

/-- C6 witness: concrete evaluation on a configuration with all scopes, a
wildcard entry before an exact entry, and one localdir. -/
theorem c6_get_options_structure_witness :
    get_options cfgC6W (some "my_volume") none
      = commonOpts cfgC6W ++ volumeScopeOpts cfgC6W ++ perVolumeOpts cfgC6W "my_volume" :=
  (c6_get_options_structure cfgC6W "my_volume" "my_tag" (by decide) (by decide)).1

/-- C7: the `volumes` scan short-circuits on the first `*` entry — with any
wildcard entry present the resolved list is empty and the flag is true;
without one, the resolved list is exactly the declared names in order. -/
theorem c7_wildcard_scan (cfg : Config) (vols : List VolumeSpec)
    (h : cfg.volumes = some vols) :
    (vols.any (fun x => x.name == "*") = true →
      volumes_to_backup cfg = ([], true))
    ∧ (vols.any (fun x => x.name == "*") = false →
      volumes_to_backup cfg = (vols.map (fun x => x.name), false)) := by
  constructor
  · intro hw
    unfold volumes_to_backup
    rw [h]
    exact scanVolumes_of_any vols [] hw
  · intro hw
    unfold volumes_to_backup
    rw [h]
    exact (scanVolumes_of_not_any vols [] hw).trans (by simp)

/-- C7 witness: a wildcard between two explicit entries clears them. -/
theorem c7_wildcard_scan_witness : volumes_to_backup cfgC7W = ([], true) :=
  (c7_wildcard_scan cfgC7W _ rfl).1 (by decide)

/-- C8: for the EXISTS subcommand the orchestrator never raises, the process
exit code is zero whatever the container exit code was, and the logged
interpretation reports the repository reachable exactly when the code is
zero. -/
theorem c8_exists_never_fatal (s : Settings) (b : BackupInputs) (code : Nat)
    (hs : s.subcommand = SubCommand.EXISTS) :
    run_tool s b code = RunOutcome.ok
    ∧ process_exit_code (run_tool s b code) = 0
    ∧ (exists_reports_reachable code = true ↔ code = 0) := by
  have h1 : run_tool s b code = RunOutcome.ok := by
    unfold run_tool
    simp [hs]
  refine ⟨h1, by rw [h1]; rfl, ?_⟩
  unfold exists_reports_reachable
  constructor
  · intro hh
    by_contra hne
    rw [if_pos (Nat.pos_of_ne_zero hne)] at hh
    exact Bool.false_ne_true hh
  · intro hh
    subst hh
    decide

/-- C8 witness: an unreachable repository (container exit 3) still ends with
process exit 0 and is reported unreachable. -/
theorem c8_exists_never_fatal_witness :
    run_tool existsSettings backupInputsW 3 = RunOutcome.ok
    ∧ process_exit_code (run_tool existsSettings backupInputsW 3) = 0
    ∧ (exists_reports_reachable 3 = true ↔ 3 = 0) :=
  c8_exists_never_fatal existsSettings backupInputsW 3 rfl

/-- C9 (spec-modelled metrics): `metric_lines` always emits the timestamp
line and emits the duration/files/size lines only for present fields — a
record lacking `summary` yields exactly one line, and a record with a
complete `summary` yields exactly four. -/
theorem c9_metric_lines_presence (parseTime : String → Int) (repo : String)
    (r : SnapshotRecord) :
    (r.summary = none →
      (metric_lines (metricsSet parseTime repo r)).length = 1)
    ∧ (∀ s, r.summary = some s →
      (metric_lines (metricsSet parseTime repo r)).length = 4) := by
  constructor
  · intro h
    simp [metric_lines, metricsSet, h]
  · intro s h
    simp [metric_lines, metricsSet, h]

/-- C9 witness: the summary-less record emits exactly one metric line. -/
theorem c9_metric_lines_presence_witness :
    (metric_lines (metricsSet (fun _ => 1733832700) "s3:repo" recordNoSummary)).length = 1 :=
  (c9_metric_lines_presence (fun _ => 1733832700) "s3:repo" recordNoSummary).1 rfl

/-- C10: every entry of the mount table — cache directory, backed-up volume,
backed-up local directory, restore target — is bound with mode `"rw"`, for
every subcommand and resource context. -/
theorem c10_mounts_all_rw (s : Settings) (volume : Option String)
    (localdir : Option (String × String)) :
    (get_docker_mounts s volume localdir).all (fun e => e.2.2 == "rw") = true := by
  simp only [get_docker_mounts]
  repeat' split
  all_goals
    repeat'
      first
        | rfl
        | apply mountInsert_rw

end Restictool

